import Mathlib

/-!
# Verification of the whiteout snowboarding locomotion core

A shallow embedding of `src/player/PlayerController.js` (the `update`,
`handleInput` and `handlePhysics` methods) and proofs of the spec's claims
about it.

Modelling conventions:
* JavaScript numbers are modelled as exact rationals `ℚ`.
* The transcendental functions used by THREE.js (`Math.sqrt` inside
  `Vector3.length`/`normalize`, `Math.cos`/`Math.sin` inside the
  y-axis rotations) are not rational-valued, so they are taken as
  parameters of the model (fields `sqrt`, `cosF`, `sinF` of `Env`).
  Every theorem below holds for an arbitrary instantiation of these
  parameters; concrete executions instantiate them with reference
  functions that agree with the true square root / cosine / sine on
  every argument actually evaluated in that execution.
* The terrain (queried through `Raycaster.intersectObject`) is an
  external collaborator; it is modelled as a function
  `probe : Vec3 → Option ProbeHit` returning the hit elevation
  (`intersects[0].point.y`) and the world-space (un-normalized) face
  normal, exactly the data the controller reads from a hit.
* The trick system (`TrickSystem.js`) is declared an opaque external
  collaborator by the spec (§6); the controller's calls into it are
  recorded as a list of `TrickEvent`s, and the result of `land()` is a
  parameter `trickLand` of the environment.
* The purely cosmetic `this.body.scale` writes and all
  scene-graph/mesh code are rendering concerns and are not part of the
  motion state.
-/

namespace Whiteout

/-- A 3-component vector of exact rationals, modelling `THREE.Vector3`. -/
structure Vec3 where
  x : ℚ
  y : ℚ
  z : ℚ
deriving DecidableEq, Repr

/-- Result of one vertical terrain probe: elevation of the hit point
(`intersects[0].point.y`) and the world-space surface normal before the
controller's final `normalize()` call. -/
structure ProbeHit where
  elevation : ℚ
  normal : Vec3
deriving DecidableEq, Repr

/-- Result of `TrickSystem.land()`: points scored and the trick's name. -/
structure TrickResult where
  points : ℤ
  name : String
deriving DecidableEq, Repr

/-- The environment of one tick: the numeric reference functions, the
terrain probe and the trick collaborator's landing answer. -/
structure Env where
  sqrt : ℚ → ℚ
  cosF : ℚ → ℚ
  sinF : ℚ → ℚ
  probe : Vec3 → Option ProbeHit
  trickLand : TrickResult

/-- One call from the controller into the trick collaborator. -/
inductive TrickEvent where
  | jumpStart : TrickEvent
  | tickUpdate (dt rotDelta : ℚ) : TrickEvent
  | land : TrickEvent
deriving DecidableEq, Repr

/-- The per-tick snapshot of boolean input actions (`this.input.actions`).
`backward` doubles as the carve/brake action in the friction code. -/
structure Actions where
  forward : Bool
  backward : Bool
  left : Bool
  right : Bool
  spinLeft : Bool
  spinRight : Bool
  jump : Bool
deriving DecidableEq, Repr

/-- The mutable motion state of `PlayerController` (the fields read and
written by `update`/`handleInput`/`handlePhysics`).  The misspelt field
name `lastTruncName` is taken verbatim from the source. -/
structure MotionState where
  position : Vec3
  velocity : Vec3
  heading : ℚ
  pitch : ℚ
  roll : ℚ
  grounded : Bool
  airTime : ℚ
  jumpCharge : ℚ
  score : ℤ
  lastTruncName : String
deriving DecidableEq, Repr

/-! ## Constants (constructor of `PlayerController`) -/

def gravity : ℚ := 30.0
def friction : ℚ := 0.2
def turnSpeed : ℚ := 3.0
def maxSpeed : ℚ := 60.0
def jumpForce : ℚ := 10.0
def maxJumpCharge : ℚ := 1.0
def snapDistance : ℚ := 0.5
def flipSpeed : ℚ := 5.0
def airSteerSpeed : ℚ := 15.0

/-! ## Vector operations (THREE.Vector3) -/

/-- `Vector3.add`. -/
def vadd (a b : Vec3) : Vec3 := ⟨a.x + b.x, a.y + b.y, a.z + b.z⟩

/-- `Vector3.sub`. -/
def vsub (a b : Vec3) : Vec3 := ⟨a.x - b.x, a.y - b.y, a.z - b.z⟩

/-- `Vector3.negate`. -/
def vneg (a : Vec3) : Vec3 := ⟨-a.x, -a.y, -a.z⟩

/-- `Vector3.multiplyScalar c`. -/
def vscale (c : ℚ) (a : Vec3) : Vec3 := ⟨c * a.x, c * a.y, c * a.z⟩

/-- `Vector3.dot`. -/
def vdot (a b : Vec3) : ℚ := a.x * b.x + a.y * b.y + a.z * b.z

/-- `Vector3.lerp a b t`: componentwise `a + (b - a) * t`. -/
def vlerp (a b : Vec3) (t : ℚ) : Vec3 :=
  ⟨a.x + (b.x - a.x) * t, a.y + (b.y - a.y) * t, a.z + (b.z - a.z) * t⟩

/-- `Vector3.length`, through the environment's square-root parameter. -/
def vlength (env : Env) (a : Vec3) : ℚ := env.sqrt (vdot a a)

/-- `Vector3.normalize`: THREE divides by `length() || 1`, so the zero
vector (length `0`) is divided by `1` and returned unchanged. -/
def vnormalize (env : Env) (a : Vec3) : Vec3 :=
  let l := vlength env a
  vscale (1 / (if l = 0 then 1 else l)) a

/-- `Vector3.setLength l`. -/
def vsetLength (env : Env) (l : ℚ) (a : Vec3) : Vec3 :=
  vscale l (vnormalize env a)

/-- Rotation about the world y-axis by angle `θ`
(`applyAxisAngle((0,1,0), θ)` and `applyMatrix4(makeRotationY(θ))`):
`(x, y, z) ↦ (x cos θ + z sin θ, y, -x sin θ + z cos θ)`. -/
def rotateY (env : Env) (θ : ℚ) (a : Vec3) : Vec3 :=
  ⟨env.cosF θ * a.x + env.sinF θ * a.z, a.y,
   -(env.sinF θ) * a.x + env.cosF θ * a.z⟩

/-- `THREE.MathUtils.lerp a b t = a + (b - a) * t`. -/
def lerpQ (a b t : ℚ) : ℚ := a + (b - a) * t

/-! ## handleInput -/

/-- The basic left/right turn contribution (`turn += 1` for left,
`turn -= 1` for right). -/
def turnInput (a : Actions) : ℚ :=
  (if a.left then (1 : ℚ) else 0) + (if a.right then (-1 : ℚ) else 0)

/-- The per-tick heading change `rotationDelta` of `handleInput`:
plain turning while grounded; airborne, flip input suppresses spin
(`rotationDelta = 0`), otherwise lateral input plus the spin-key boost,
doubled, at the base turn rate. -/
def rotDelta (dt : ℚ) (a : Actions) (s : MotionState) : ℚ :=
  if s.grounded then
    turnInput a * turnSpeed * dt
  else if a.forward || a.backward then
    0
  else if a.left || a.right then
    (turnInput a
        + (if a.spinLeft then (2.0 : ℚ)
           else if a.spinRight then (-2.0 : ℚ) else 0))
      * 2.0 * turnSpeed * dt
  else 0

/-- The pitch update of `handleInput`: airborne flips at `flipSpeed`,
grounded exponential decay toward 0 with a snap below `0.1`. -/
def inputPitch (dt : ℚ) (a : Actions) (s : MotionState) : ℚ :=
  if s.grounded then
    let p := lerpQ s.pitch 0 (dt * 10)
    if |p| < 0.1 then 0 else p
  else if a.forward then s.pitch - flipSpeed * dt
  else if a.backward then s.pitch + flipSpeed * dt
  else s.pitch

/-- The per-tick report to the trick collaborator: `onTick` only while
airborne, carrying this tick's `rotationDelta`. -/
def inputEvents (dt : ℚ) (a : Actions) (s : MotionState) : List TrickEvent :=
  if s.grounded then [] else [TrickEvent.tickUpdate dt (rotDelta dt a s)]

/-- `handleInput(dt)`: turning/spinning, flips, the per-tick trick report
and the jump charge/release block.  Returns the new state together with
the calls made into the trick collaborator, in call order.

The source mutates `this.heading += rotationDelta` only in the branches
that set a non-zero `rotationDelta`; here `heading` is uniformly updated
by `rotDelta`, which is `0` in exactly the remaining branches, an
arithmetically identical formulation over exact rationals. -/
def handleInput (env : Env) (dt : ℚ) (a : Actions) (s : MotionState) :
    MotionState × List TrickEvent :=
  let heading1 := s.heading + rotDelta dt a s
  let pitch1 := inputPitch dt a s
  let ev1 := inputEvents dt a s
  if s.grounded || s.airTime < 0.25 then
    if a.jump then
      ({ s with heading := heading1, pitch := pitch1,
                jumpCharge := min (s.jumpCharge + dt * 1.5) maxJumpCharge },
       ev1)
    else if 0 < s.jumpCharge then
      let finalForce := jumpForce * (0.8 + s.jumpCharge * 1.5)
      let vy0 := if s.velocity.y < 0 then (0 : ℚ) else s.velocity.y
      ({ s with heading := heading1, pitch := pitch1,
                grounded := false, airTime := 1.0,
                velocity := { s.velocity with y := vy0 + finalForce },
                jumpCharge := 0 },
       ev1 ++ [TrickEvent.jumpStart])
    else
      ({ s with heading := heading1, pitch := pitch1 }, ev1)
  else
    if 0.25 < s.airTime then
      ({ s with heading := heading1, pitch := pitch1, jumpCharge := 0 }, ev1)
    else
      ({ s with heading := heading1, pitch := pitch1 }, ev1)

/-! ## handlePhysics -/

/-- The five body-local probe offsets (`offsets` array in the source). -/
def probeOffsets : List Vec3 :=
  [⟨0, 0, 0⟩, ⟨-0.3, 0, -0.7⟩, ⟨0.3, 0, -0.7⟩, ⟨-0.3, 0, 0.7⟩, ⟨0.3, 0, 0.7⟩]

/-- World-space ray origins of the five probes: each offset rotated by the
current heading, added to the position, raised by `3.0`. -/
def probeOrigins (env : Env) (s : MotionState) : List Vec3 :=
  probeOffsets.map fun o =>
    let w := rotateY env s.heading o
    ⟨s.position.x + w.x, s.position.y + w.y + 3.0, s.position.z + w.z⟩

/-- The ground-sampling pass of `handlePhysics` (lines 204–247): probe the
five origins, average elevation and normalized normals over the
successful hits; with zero hits fall back to elevation `-1000` and the
world-up normal.  (The source divides `avgHeight` only when
`validHits > 1`; with exactly one hit it holds the single elevation,
which equals the sum divided by `1`.) -/
def sampleGround (env : Env) (s : MotionState) : ℚ × Vec3 :=
  let hits := (probeOrigins env s).filterMap env.probe
  let validHits : ℚ := hits.length
  let sumHeight := (hits.map fun h => h.elevation).sum
  let avgHeight := if 1 < hits.length then sumHeight / validHits else sumHeight
  let sumNormal :=
    hits.foldl (fun acc h => vadd acc (vnormalize env h.normal)) ⟨0, 0, 0⟩
  if 0 < hits.length then
    (avgHeight, vnormalize env (vscale (1 / validHits) sumNormal))
  else
    (-1000, ⟨0, 1, 0⟩)

/-- The contact classification of lines 249–253:
`distToGround <= snapDistance + 0.5 && velocity.y <= 0.1`. -/
def groundedTest (env : Env) (s : MotionState) : Prop :=
  s.position.y - (sampleGround env s).1 ≤ snapDistance + 0.5
    ∧ s.velocity.y ≤ 0.1

instance (env : Env) (s : MotionState) : Decidable (groundedTest env s) := by
  unfold groundedTest; exact inferInstance

/-- Score after the landing handoff: on an AIRBORNE→GROUNDED tick the
trick collaborator's positive points are added, otherwise the score is
unchanged. -/
def landScore (env : Env) (s : MotionState) : ℤ :=
  if s.grounded then s.score
  else if 0 < env.trickLand.points then s.score + env.trickLand.points
  else s.score

/-- Displayed trick name after the landing handoff: recorded only for a
positive-point landing result. -/
def landName (env : Env) (s : MotionState) : String :=
  if s.grounded then s.lastTruncName
  else if 0 < env.trickLand.points then env.trickLand.name
  else s.lastTruncName

/-- The `onLand` call into the trick collaborator, made exactly on the
AIRBORNE→GROUNDED transition. -/
def landEvents (s : MotionState) : List TrickEvent :=
  if s.grounded then [] else [TrickEvent.land]

/-- The grounded-branch velocity pipeline (lines 269–295): slope-projected
gravity, friction (elevated while carving/braking), switch & steering with
the grip blend, speed clamp, and removal of the into-ground normal
component. -/
def groundVelocity (env : Env) (dt : ℚ) (a : Actions) (s : MotionState)
    (groundNormal : Vec3) : Vec3 :=
  let gravityVec : Vec3 := ⟨0, -1, 0⟩
  let gravityComponent :=
    vsub gravityVec (vscale (vdot gravityVec groundNormal) groundNormal)
  let v1 := vadd s.velocity (vscale (gravity * dt) gravityComponent)
  let currentFriction := if a.backward then (5.0 : ℚ) else friction
  let v2 := vscale (1 - currentFriction * dt) v1
  let speed := vlength env v2
  let v3 :=
    if 0.1 < speed then
      let forward := rotateY env s.heading ⟨0, 0, -1⟩
      let velDir := vnormalize env v2
      let d := vdot velDir forward
      let targetFacing := if 0 ≤ d then forward else vneg forward
      let slopeDir :=
        vnormalize env
          (vsub targetFacing
            (vscale (vdot targetFacing groundNormal) groundNormal))
      let grip := 8.0 * dt
      vscale speed (vlerp (vnormalize env v2) slopeDir grip)
    else v2
  let v4 := if maxSpeed < vlength env v3 then vsetLength env maxSpeed v3 else v3
  let vn := vdot v4 groundNormal
  if vn < 0 then vsub v4 (vscale vn groundNormal) else v4

/-- The airborne-branch velocity pipeline (lines 302–318): gravity, light
drag, and the lateral air-steering impulse while in flip mode.  (In the
source `steerDir` starts at zero, is set to `(-1,0,0)` if `left` is held
and then overwritten with `(1,0,0)` if `right` is held.) -/
def airVelocity (env : Env) (dt : ℚ) (a : Actions) (s : MotionState) : Vec3 :=
  let v1 : Vec3 := { s.velocity with y := s.velocity.y - gravity * dt }
  let v2 := vscale (1 - 0.05 * dt) v1
  if (a.forward || a.backward) && (a.left || a.right) then
    let sd0 : Vec3 := ⟨0, 0, 0⟩
    let sd1 := if a.left then (⟨-1, 0, 0⟩ : Vec3) else sd0
    let sd2 := if a.right then (⟨1, 0, 0⟩ : Vec3) else sd1
    let steer := rotateY env s.heading sd2
    vadd v2 (vscale (airSteerSpeed * dt) steer)
  else v2

/-- `handlePhysics(dt)`: ground sampling, contact classification, the
grounded branch (landing handoff, vertical snap, grounded velocity
pipeline) or the airborne branch (air-time accrual, airborne velocity
pipeline), then position integration.  Returns the new state and the
calls made into the trick collaborator. -/
def handlePhysics (env : Env) (dt : ℚ) (a : Actions) (s : MotionState) :
    MotionState × List TrickEvent :=
  let g := sampleGround env s
  if groundedTest env s then
    let v5 := groundVelocity env dt a s g.2
    let s1 : MotionState :=
      { s with position := { s.position with y := g.1 }, velocity := v5,
               grounded := true, airTime := 0, score := landScore env s,
               lastTruncName := landName env s,
               pitch := if s.grounded then s.pitch else 0,
               roll := if s.grounded then s.roll else 0 }
    ({ s1 with position := vadd s1.position (vscale dt v5) }, landEvents s)
  else
    let v3 := airVelocity env dt a s
    let s1 : MotionState :=
      { s with grounded := false, airTime := s.airTime + dt, velocity := v3 }
    ({ s1 with position := vadd s1.position (vscale dt v3) }, [])

/-- `update(dt)`: input handling, then physics, then the cosmetic
roll (bank/tilt) blend.  The mesh/scene-graph writes are rendering only
and carry no motion state. -/
def update (env : Env) (dt : ℚ) (a : Actions) (s : MotionState) :
    MotionState × List TrickEvent :=
  let r1 := handleInput env dt a s
  let r2 := handlePhysics env dt a r1.1
  let s2 := r2.1
  let roll2 :=
    if s2.grounded then
      let lean := (if a.left then (1 : ℚ) else 0) - (if a.right then (1 : ℚ) else 0)
      lerpQ s2.roll (lean * 0.5) (dt * 5)
    else
      lerpQ s2.roll 0 (dt * 2)
  ({ s2 with roll := roll2 }, r1.2 ++ r2.2)

/-! ## Concrete fixtures for closed executions -/

/-- Reference square-root instantiation for the concrete executions
below; it agrees with the true square root on `0` and `1`, the only
arguments it is ever applied to in those executions. -/
def sqrtRef : ℚ → ℚ := fun q => if q = 1 then 1 else 0

/-- Reference cosine for the concrete executions below, all of which
keep `heading = 0`: `cos 0 = 1`. -/
def cosRef : ℚ → ℚ := fun _ => 1

/-- Reference sine for the concrete executions below, all of which keep
`heading = 0`: `sin 0 = 0`. -/
def sinRef : ℚ → ℚ := fun _ => 0

/-- Environment of a flat terrain at elevation `0` with world-up
normals, with a chosen landing answer from the trick collaborator. -/
def flatEnv (tr : TrickResult) : Env :=
  { sqrt := sqrtRef, cosF := cosRef, sinF := sinRef,
    probe := fun _ => some ⟨0, ⟨0, 1, 0⟩⟩, trickLand := tr }

/-- Environment whose terrain probe never hits, with a chosen landing
answer from the trick collaborator. -/
def voidEnv (tr : TrickResult) : Env :=
  { sqrt := sqrtRef, cosF := cosRef, sinF := sinRef,
    probe := fun _ => none, trickLand := tr }

/-- The all-false input snapshot. -/
def noActions : Actions := ⟨false, false, false, false, false, false, false⟩

/-- A resting grounded state at the constructor's start position. -/
def groundedState : MotionState :=
  { position := ⟨0, 0, 40⟩, velocity := ⟨0, 0, 0⟩, heading := 0, pitch := 0,
    roll := 0, grounded := true, airTime := 0, jumpCharge := 0, score := 0,
    lastTruncName := "" }

/-- An airborne state high above the terrain. -/
def airborneState : MotionState :=
  { position := ⟨0, 100, 40⟩, velocity := ⟨0, 0, 0⟩, heading := 0, pitch := 0,
    roll := 0, grounded := false, airTime := 1, jumpCharge := 0, score := 0,
    lastTruncName := "" }

/-- A grounded state holding half a jump charge. -/
def c1State : MotionState := { groundedState with jumpCharge := 1/2 }

/-- An airborne state hovering just above flat terrain, about to land. -/
def landingState : MotionState :=
  { airborneState with position := ⟨0, 1/2, 0⟩, pitch := 2, roll := 1 }

/-- A grounded state resting slightly above the flat terrain, so that the
grounded vertical snap at `dt = 0` visibly moves it. -/
def c7State : MotionState :=
  { position := ⟨0, 1/2, 0⟩, velocity := ⟨0, 0, 0⟩, heading := 0, pitch := 0,
    roll := 0, grounded := true, airTime := 0, jumpCharge := 0, score := 0,
    lastTruncName := "" }

/-- The same state holding half a jump charge, so that a jump release
fires on a `dt = 0` tick. -/
def c7ChargedState : MotionState := { c7State with jumpCharge := 1/2 }

/-- Two motion states that agree on every field except (possibly)
`roll`. -/
structure EqExceptRoll (s t : MotionState) : Prop where
  position : s.position = t.position
  velocity : s.velocity = t.velocity
  heading : s.heading = t.heading
  pitch : s.pitch = t.pitch
  grounded : s.grounded = t.grounded
  airTime : s.airTime = t.airTime
  jumpCharge : s.jumpCharge = t.jumpCharge
  score : s.score = t.score
  lastTruncName : s.lastTruncName = t.lastTruncName

/-! ## Helper lemmas -/

/-- `handlePhysics` never changes `heading`. -/
theorem handlePhysics_heading (env : Env) (dt : ℚ) (a : Actions)
    (s : MotionState) : (handlePhysics env dt a s).1.heading = s.heading := by
  simp only [handlePhysics]; split <;> rfl

/-- `handlePhysics` never changes `jumpCharge`. -/
theorem handlePhysics_jumpCharge (env : Env) (dt : ℚ) (a : Actions)
    (s : MotionState) :
    (handlePhysics env dt a s).1.jumpCharge = s.jumpCharge := by
  simp only [handlePhysics]; split <;> rfl

/-- The whole tick changes `jumpCharge` only in `handleInput`. -/
theorem update_jumpCharge (env : Env) (dt : ℚ) (a : Actions)
    (s : MotionState) :
    (update env dt a s).1.jumpCharge
      = (handleInput env dt a s).1.jumpCharge := by
  simp only [update]; exact handlePhysics_jumpCharge env dt a _

/-- The whole tick changes `heading` only in `handleInput`. -/
theorem update_heading (env : Env) (dt : ℚ) (a : Actions) (s : MotionState) :
    (update env dt a s).1.heading = (handleInput env dt a s).1.heading := by
  simp only [update]; exact handlePhysics_heading env dt a _

/-- `handleInput` never changes `position`. -/
theorem handleInput_position (env : Env) (dt : ℚ) (a : Actions)
    (s : MotionState) : (handleInput env dt a s).1.position = s.position := by
  simp only [handleInput]; split_ifs <;> rfl

/-- `handleInput` never changes `score`. -/
theorem handleInput_score (env : Env) (dt : ℚ) (a : Actions)
    (s : MotionState) : (handleInput env dt a s).1.score = s.score := by
  simp only [handleInput]; split_ifs <;> rfl

/-- `handleInput` never changes `roll`. -/
theorem handleInput_roll (env : Env) (dt : ℚ) (a : Actions)
    (s : MotionState) : (handleInput env dt a s).1.roll = s.roll := by
  simp only [handleInput]; split_ifs <;> rfl

/-- `handleInput` never changes the displayed trick name. -/
theorem handleInput_lastTruncName (env : Env) (dt : ℚ) (a : Actions)
    (s : MotionState) :
    (handleInput env dt a s).1.lastTruncName = s.lastTruncName := by
  simp only [handleInput]; split_ifs <;> rfl

/-- The pitch written by `handleInput` is `inputPitch`. -/
theorem handleInput_pitch (env : Env) (dt : ℚ) (a : Actions)
    (s : MotionState) :
    (handleInput env dt a s).1.pitch = inputPitch dt a s := by
  simp only [handleInput]; split_ifs <;> rfl

/-- The heading written by `handleInput` advances by `rotDelta`. -/
theorem handleInput_heading (env : Env) (dt : ℚ) (a : Actions)
    (s : MotionState) :
    (handleInput env dt a s).1.heading = s.heading + rotDelta dt a s := by
  simp only [handleInput]; split_ifs <;> rfl

/-- Branch characterization of the `jumpCharge` written by `handleInput`. -/
theorem handleInput_jumpCharge (env : Env) (dt : ℚ) (a : Actions)
    (s : MotionState) :
    (handleInput env dt a s).1.jumpCharge
      = if s.grounded || s.airTime < 0.25 then
          if a.jump then min (s.jumpCharge + dt * 1.5) maxJumpCharge
          else if 0 < s.jumpCharge then 0 else s.jumpCharge
        else if 0.25 < s.airTime then 0 else s.jumpCharge := by
  simp only [handleInput]; split_ifs <;> rfl

/-- Branch characterization of the `grounded` flag after `handleInput`:
it is cleared exactly by a jump release. -/
theorem handleInput_grounded (env : Env) (dt : ℚ) (a : Actions)
    (s : MotionState) :
    (handleInput env dt a s).1.grounded
      = if s.grounded || s.airTime < 0.25 then
          if a.jump then s.grounded
          else if 0 < s.jumpCharge then false else s.grounded
        else s.grounded := by
  simp only [handleInput]; split_ifs <;> rfl

/-- Branch characterization of `airTime` after `handleInput`: it is set
to `1.0` exactly by a jump release. -/
theorem handleInput_airTime (env : Env) (dt : ℚ) (a : Actions)
    (s : MotionState) :
    (handleInput env dt a s).1.airTime
      = if s.grounded || s.airTime < 0.25 then
          if a.jump then s.airTime
          else if 0 < s.jumpCharge then 1.0 else s.airTime
        else s.airTime := by
  simp only [handleInput]; split_ifs <;> rfl

/-- Branch characterization of `velocity` after `handleInput`: it gains
the launch force exactly on a jump release. -/
theorem handleInput_velocity (env : Env) (dt : ℚ) (a : Actions)
    (s : MotionState) :
    (handleInput env dt a s).1.velocity
      = if s.grounded || s.airTime < 0.25 then
          if a.jump then s.velocity
          else if 0 < s.jumpCharge then
            { s.velocity with
                y := (if s.velocity.y < 0 then 0 else s.velocity.y)
                  + jumpForce * (0.8 + s.jumpCharge * 1.5) }
          else s.velocity
        else s.velocity := by
  simp only [handleInput]; split_ifs <;> rfl

/-- The calls `handleInput` makes into the trick collaborator: the
airborne `onTick` report followed by `onJumpStart` exactly on a jump
release. -/
theorem handleInput_events (env : Env) (dt : ℚ) (a : Actions)
    (s : MotionState) :
    (handleInput env dt a s).2
      = inputEvents dt a s
        ++ (if s.grounded || s.airTime < 0.25 then
              if a.jump then []
              else if 0 < s.jumpCharge then [TrickEvent.jumpStart] else []
            else []) := by
  simp only [handleInput]; split_ifs <;> simp

/-- Branch characterization of `pitch` after `handlePhysics`: reset on
the landing transition, otherwise untouched. -/
theorem handlePhysics_pitch (env : Env) (dt : ℚ) (a : Actions)
    (s : MotionState) :
    (handlePhysics env dt a s).1.pitch
      = if groundedTest env s then (if s.grounded then s.pitch else 0)
        else s.pitch := by
  simp only [handlePhysics]; split_ifs <;> rfl

/-- Branch characterization of `roll` after `handlePhysics`: reset on
the landing transition, otherwise untouched. -/
theorem handlePhysics_roll (env : Env) (dt : ℚ) (a : Actions)
    (s : MotionState) :
    (handlePhysics env dt a s).1.roll
      = if groundedTest env s then (if s.grounded then s.roll else 0)
        else s.roll := by
  simp only [handlePhysics]; split_ifs <;> rfl

/-- Branch characterization of `score` after `handlePhysics`. -/
theorem handlePhysics_score (env : Env) (dt : ℚ) (a : Actions)
    (s : MotionState) :
    (handlePhysics env dt a s).1.score
      = if groundedTest env s then landScore env s else s.score := by
  simp only [handlePhysics]; split_ifs <;> rfl

/-- Branch characterization of the displayed trick name after
`handlePhysics`. -/
theorem handlePhysics_lastTruncName (env : Env) (dt : ℚ) (a : Actions)
    (s : MotionState) :
    (handlePhysics env dt a s).1.lastTruncName
      = if groundedTest env s then landName env s else s.lastTruncName := by
  simp only [handlePhysics]; split_ifs <;> rfl

/-- Branch characterization of `grounded` after `handlePhysics`. -/
theorem handlePhysics_grounded (env : Env) (dt : ℚ) (a : Actions)
    (s : MotionState) :
    (handlePhysics env dt a s).1.grounded
      = if groundedTest env s then true else false := by
  simp only [handlePhysics]; split_ifs <;> rfl

/-- Branch characterization of `airTime` after `handlePhysics`. -/
theorem handlePhysics_airTime (env : Env) (dt : ℚ) (a : Actions)
    (s : MotionState) :
    (handlePhysics env dt a s).1.airTime
      = if groundedTest env s then 0 else s.airTime + dt := by
  simp only [handlePhysics]; split_ifs <;> rfl

/-- Branch characterization of `velocity` after `handlePhysics`. -/
theorem handlePhysics_velocity (env : Env) (dt : ℚ) (a : Actions)
    (s : MotionState) :
    (handlePhysics env dt a s).1.velocity
      = if groundedTest env s then
          groundVelocity env dt a s (sampleGround env s).2
        else airVelocity env dt a s := by
  simp only [handlePhysics]; split_ifs <;> rfl

/-- Branch characterization of `position` after `handlePhysics`. -/
theorem handlePhysics_position (env : Env) (dt : ℚ) (a : Actions)
    (s : MotionState) :
    (handlePhysics env dt a s).1.position
      = if groundedTest env s then
          vadd { s.position with y := (sampleGround env s).1 }
            (vscale dt (groundVelocity env dt a s (sampleGround env s).2))
        else vadd s.position (vscale dt (airVelocity env dt a s)) := by
  simp only [handlePhysics]; split_ifs <;> rfl

/-- The calls `handlePhysics` makes into the trick collaborator. -/
theorem handlePhysics_events (env : Env) (dt : ℚ) (a : Actions)
    (s : MotionState) :
    (handlePhysics env dt a s).2
      = if groundedTest env s then landEvents s else [] := by
  simp only [handlePhysics]; split_ifs <;> rfl

/-- The state after a whole tick is the physics state with only `roll`
rewritten by the cosmetic bank blend. -/
theorem update_position (env : Env) (dt : ℚ) (a : Actions) (s : MotionState) :
    (update env dt a s).1.position
      = (handlePhysics env dt a (handleInput env dt a s).1).1.position := rfl

/-- The whole tick's `velocity` is the physics `velocity`. -/
theorem update_velocity (env : Env) (dt : ℚ) (a : Actions) (s : MotionState) :
    (update env dt a s).1.velocity
      = (handlePhysics env dt a (handleInput env dt a s).1).1.velocity := rfl

/-- The whole tick's `score` is the physics `score`. -/
theorem update_score (env : Env) (dt : ℚ) (a : Actions) (s : MotionState) :
    (update env dt a s).1.score
      = (handlePhysics env dt a (handleInput env dt a s).1).1.score := rfl

/-- The whole tick's trick-collaborator calls, in order. -/
theorem update_events (env : Env) (dt : ℚ) (a : Actions) (s : MotionState) :
    (update env dt a s).2
      = (handleInput env dt a s).2
        ++ (handlePhysics env dt a (handleInput env dt a s).1).2 := rfl

/-- At `dt = 0` the heading change vanishes in every branch. -/
theorem rotDelta_zero (a : Actions) (s : MotionState) :
    rotDelta 0 a s = 0 := by
  simp only [rotDelta]; split_ifs <;> ring

/-- At `dt = 0` the airborne velocity pipeline is the identity. -/
theorem airVelocity_zero (env : Env) (a : Actions) (s : MotionState) :
    airVelocity env 0 a s = s.velocity := by
  obtain ⟨p, ⟨vx, vy, vz⟩, hd, pi, r, g, t, jc, sc, nm⟩ := s
  simp only [airVelocity, vadd, vscale]
  split_ifs <;> simp <;> ring_nf <;> simp

/-- Adding a `dt = 0` scaled velocity leaves a position unchanged. -/
theorem vadd_vscale_zero (p v : Vec3) : vadd p (vscale 0 v) = p := by
  cases p; simp [vadd, vscale]

/-! ## Claim theorems -/

/-- Claim C1: for every state with `jumpCharge = c > 0` in which charging
is permitted (grounded, or airborne within the coyote window), on a tick
where the jump action is not held, the jump-release step (`handleInput`,
lines 175–193) sets `grounded` to false, sets `airTime` to exactly 1.0,
zeroes `velocity.y` first if it is negative and then increases it by
`jumpForce * (0.8 + c * 1.5)`, resets `jumpCharge` to 0, and notifies
the trick collaborator exactly once that a jump has started. -/
theorem c1_jump_release (env : Env) (dt : ℚ) (a : Actions) (s : MotionState)
    (hc : 0 < s.jumpCharge) (hperm : s.grounded = true ∨ s.airTime < 0.25)
    (hj : a.jump = false) :
    (handleInput env dt a s).1.grounded = false
      ∧ (handleInput env dt a s).1.airTime = 1.0
      ∧ (handleInput env dt a s).1.velocity.y
          = (if s.velocity.y < 0 then 0 else s.velocity.y)
            + jumpForce * (0.8 + s.jumpCharge * 1.5)
      ∧ (handleInput env dt a s).1.jumpCharge = 0
      ∧ (handleInput env dt a s).2.count TrickEvent.jumpStart = 1 := by
  rcases hperm with h | h <;> cases hg : s.grounded <;>
    simp_all [handleInput, inputEvents, hj, hc, List.count_cons,
      List.count_append, List.count_nil]

/-- Witness for C1: a grounded state with `jumpCharge = 1/2` releasing
the jump on a `dt = 1/10` tick. -/
theorem c1_jump_release_witness :
    0 < c1State.jumpCharge
      ∧ (c1State.grounded = true ∨ c1State.airTime < 0.25)
      ∧ noActions.jump = false
      ∧ ((handleInput (flatEnv ⟨0, ""⟩) (1/10) noActions c1State).1.grounded = false
          ∧ (handleInput (flatEnv ⟨0, ""⟩) (1/10) noActions c1State).1.airTime = 1.0
          ∧ (handleInput (flatEnv ⟨0, ""⟩) (1/10) noActions c1State).1.velocity.y
              = (if c1State.velocity.y < 0 then 0 else c1State.velocity.y)
                + jumpForce * (0.8 + c1State.jumpCharge * 1.5)
          ∧ (handleInput (flatEnv ⟨0, ""⟩) (1/10) noActions c1State).1.jumpCharge = 0
          ∧ (handleInput (flatEnv ⟨0, ""⟩) (1/10) noActions c1State).2.count
              TrickEvent.jumpStart = 1) :=
  ⟨by norm_num [c1State, groundedState], Or.inl rfl, rfl,
    c1_jump_release (flatEnv ⟨0, ""⟩) (1/10) noActions c1State
      (by norm_num [c1State, groundedState]) (Or.inl rfl) rfl⟩

/-- Claim C2: on every tick, the rider is classified GROUNDED if and only
if `position.y - averageGroundElevation ≤ snapDistance + 0.5` and
`velocity.y ≤ 0.1` (so `velocity.y ≤ 0.1` is in particular necessary for
transitioning into GROUNDED on any tick). -/
theorem c2_ground_classification (env : Env) (dt : ℚ) (a : Actions)
    (s : MotionState) :
    (handlePhysics env dt a s).1.grounded = true
      ↔ (s.position.y - (sampleGround env s).1 ≤ snapDistance + 0.5
          ∧ s.velocity.y ≤ 0.1) := by
  by_cases hgt : groundedTest env s
  · constructor
    · intro _; exact hgt
    · intro _; simp [handlePhysics, hgt]
  · constructor
    · intro hg; exact absurd hg (by simp [handlePhysics, hgt])
    · intro hcond; exact absurd hcond hgt

/-- Claim C3: on a tick where contact classification flips from airborne
to grounded, the trick collaborator's landing query is called exactly
once; positive points are added to `score` and the name recorded; a
zero-point result leaves score and trick name unchanged; and `pitch`,
`roll` are reset to 0 and `airTime` to 0 regardless of the outcome. -/
theorem c3_landing_transition (env : Env) (dt : ℚ) (a : Actions)
    (s : MotionState) (hg : s.grounded = false) (hgt : groundedTest env s) :
    (handlePhysics env dt a s).2.count TrickEvent.land = 1
      ∧ (0 < env.trickLand.points →
          (handlePhysics env dt a s).1.score = s.score + env.trickLand.points
            ∧ (handlePhysics env dt a s).1.lastTruncName = env.trickLand.name)
      ∧ (env.trickLand.points = 0 →
          (handlePhysics env dt a s).1.score = s.score
            ∧ (handlePhysics env dt a s).1.lastTruncName = s.lastTruncName)
      ∧ (handlePhysics env dt a s).1.pitch = 0
      ∧ (handlePhysics env dt a s).1.roll = 0
      ∧ (handlePhysics env dt a s).1.airTime = 0 := by
  have hev : (handlePhysics env dt a s).2 = [TrickEvent.land] := by
    simp [handlePhysics, if_pos hgt, landEvents, hg]
  refine ⟨by rw [hev]; decide, fun hp => ?_, fun hz => ?_, ?_, ?_, ?_⟩
  · constructor <;> simp [handlePhysics, if_pos hgt, landScore, landName, hg, hp]
  · have hnp : ¬ (0 < env.trickLand.points) := by omega
    constructor <;> simp [handlePhysics, if_pos hgt, landScore, landName, hg, hnp]
  · simp [handlePhysics, if_pos hgt, hg]
  · simp [handlePhysics, if_pos hgt, hg]
  · simp [handlePhysics, if_pos hgt, hg]

/-- Witness for C3: landing on flat terrain from `landingState` with a
100-point trick result. -/
theorem c3_landing_transition_witness :
    landingState.grounded = false
      ∧ groundedTest (flatEnv ⟨100, "360 spin"⟩) landingState
      ∧ ((handlePhysics (flatEnv ⟨100, "360 spin"⟩) (1/10) noActions
            landingState).2.count TrickEvent.land = 1
          ∧ (0 < (flatEnv ⟨100, "360 spin"⟩).trickLand.points →
              (handlePhysics (flatEnv ⟨100, "360 spin"⟩) (1/10) noActions
                  landingState).1.score
                  = landingState.score + (flatEnv ⟨100, "360 spin"⟩).trickLand.points
                ∧ (handlePhysics (flatEnv ⟨100, "360 spin"⟩) (1/10) noActions
                    landingState).1.lastTruncName
                    = (flatEnv ⟨100, "360 spin"⟩).trickLand.name)
          ∧ ((flatEnv ⟨100, "360 spin"⟩).trickLand.points = 0 →
              (handlePhysics (flatEnv ⟨100, "360 spin"⟩) (1/10) noActions
                  landingState).1.score = landingState.score
                ∧ (handlePhysics (flatEnv ⟨100, "360 spin"⟩) (1/10) noActions
                    landingState).1.lastTruncName = landingState.lastTruncName)
          ∧ (handlePhysics (flatEnv ⟨100, "360 spin"⟩) (1/10) noActions
              landingState).1.pitch = 0
          ∧ (handlePhysics (flatEnv ⟨100, "360 spin"⟩) (1/10) noActions
              landingState).1.roll = 0
          ∧ (handlePhysics (flatEnv ⟨100, "360 spin"⟩) (1/10) noActions
              landingState).1.airTime = 0) :=
  ⟨rfl,
    by
      norm_num [groundedTest, sampleGround, probeOrigins, probeOffsets, landScore, landName, landEvents, groundVelocity, airVelocity,
        landingState, airborneState, flatEnv, sqrtRef, cosRef, sinRef,
        rotateY, vadd, vscale, vdot, vlength, vnormalize, snapDistance,
        List.filterMap_cons, List.filterMap_nil, List.map_cons, List.map_nil,
        List.foldl_cons, List.foldl_nil, List.sum_cons, List.sum_nil],
    c3_landing_transition (flatEnv ⟨100, "360 spin"⟩) (1/10) noActions
      landingState rfl
      (by
        norm_num [groundedTest, sampleGround, probeOrigins, probeOffsets, landScore, landName, landEvents, groundVelocity, airVelocity,
          landingState, airborneState, flatEnv, sqrtRef, cosRef, sinRef,
          rotateY, vadd, vscale, vdot, vlength, vnormalize, snapDistance,
          List.filterMap_cons, List.filterMap_nil, List.map_cons,
          List.map_nil, List.foldl_cons, List.foldl_nil, List.sum_cons,
          List.sum_nil])⟩

/-- Claim C6: on a tick where all five terrain probes report no hit, the
ground data falls back to elevation `-1000` with the world-up normal,
and the rider is classified ungrounded — regardless of the prior value
of `grounded` — for every position above the `-1000` fallback (the
elevation is "far below any reachable position"). -/
theorem c6_no_hits_ungrounded (env : Env) (dt : ℚ) (a : Actions)
    (s : MotionState)
    (hnone : ∀ o ∈ probeOrigins env s, env.probe o = none)
    (hreach : -999 < s.position.y) :
    sampleGround env s = (-1000, ⟨0, 1, 0⟩)
      ∧ (handlePhysics env dt a s).1.grounded = false := by
  have hnil : (probeOrigins env s).filterMap env.probe = [] :=
    List.filterMap_eq_nil_iff.mpr hnone
  have hsg : sampleGround env s = (-1000, ⟨0, 1, 0⟩) := by
    simp [sampleGround, hnil]
  refine ⟨hsg, ?_⟩
  have hngt : ¬ groundedTest env s := by
    intro hgt
    have h1 := hgt.1
    rw [hsg] at h1
    simp only [snapDistance] at h1
    norm_num at h1
    linarith
  simp [handlePhysics, hngt]

/-- Witness for C6: the grounded resting state in the environment whose
probe never hits. -/
theorem c6_no_hits_ungrounded_witness :
    (∀ o ∈ probeOrigins (voidEnv ⟨0, ""⟩) groundedState,
        (voidEnv ⟨0, ""⟩).probe o = none)
      ∧ (-999 : ℚ) < groundedState.position.y
      ∧ (sampleGround (voidEnv ⟨0, ""⟩) groundedState = (-1000, ⟨0, 1, 0⟩)
          ∧ (handlePhysics (voidEnv ⟨0, ""⟩) (1/10) noActions
              groundedState).1.grounded = false) :=
  ⟨fun _ _ => rfl, by norm_num [groundedState],
    c6_no_hits_ungrounded (voidEnv ⟨0, ""⟩) (1/10) noActions groundedState
      (fun _ _ => rfl) (by norm_num [groundedState])⟩

/-- Claim C10 (implicit in the code, not stated in the spec): on every
tick classified GROUNDED, `position.y` is overwritten with the averaged
ground elevation before velocity integration, so at end of tick
`position.y = averageGroundElevation + velocity.y * dt` with the
end-of-tick velocity — on every grounded tick, not only on landing. -/
theorem c10_ground_snap (env : Env) (dt : ℚ) (a : Actions) (s : MotionState)
    (hgt : groundedTest env s) :
    (handlePhysics env dt a s).1.position.y
      = (sampleGround env s).1
        + (handlePhysics env dt a s).1.velocity.y * dt := by
  simp only [handlePhysics, if_pos hgt, vadd, vscale]
  ring

/-- Witness for C10: a grounded tick on flat terrain from `c7State`. -/
theorem c10_ground_snap_witness :
    groundedTest (flatEnv ⟨0, ""⟩) c7State
      ∧ (handlePhysics (flatEnv ⟨0, ""⟩) (1/10) noActions c7State).1.position.y
          = (sampleGround (flatEnv ⟨0, ""⟩) c7State).1
            + (handlePhysics (flatEnv ⟨0, ""⟩) (1/10) noActions
                c7State).1.velocity.y * (1/10) :=
  ⟨by
      norm_num [groundedTest, sampleGround, probeOrigins, probeOffsets, landScore, landName, landEvents, groundVelocity, airVelocity,
        c7State, flatEnv, sqrtRef, cosRef, sinRef, rotateY, vadd, vscale,
        vdot, vlength, vnormalize, snapDistance, List.filterMap_cons,
        List.filterMap_nil, List.map_cons, List.map_nil, List.foldl_cons,
        List.foldl_nil, List.sum_cons, List.sum_nil],
    c10_ground_snap (flatEnv ⟨0, ""⟩) (1/10) noActions c7State
      (by
        norm_num [groundedTest, sampleGround, probeOrigins, probeOffsets, landScore, landName, landEvents, groundVelocity, airVelocity,
          c7State, flatEnv, sqrtRef, cosRef, sinRef, rotateY, vadd, vscale,
          vdot, vlength, vnormalize, snapDistance, List.filterMap_cons,
          List.filterMap_nil, List.map_cons, List.map_nil, List.foldl_cons,
          List.foldl_nil, List.sum_cons, List.sum_nil])⟩

/-- Claim C4: for every tick with `dt ≥ 0`, `jumpCharge` stays within
`[0, maxJumpCharge]` across the whole tick update, assuming it was
within those bounds before. -/
theorem c4_jumpCharge_bounds (env : Env) (dt : ℚ) (a : Actions)
    (s : MotionState) (hdt : 0 ≤ dt) (h0 : 0 ≤ s.jumpCharge)
    (h1 : s.jumpCharge ≤ maxJumpCharge) :
    0 ≤ (update env dt a s).1.jumpCharge
      ∧ (update env dt a s).1.jumpCharge ≤ maxJumpCharge := by
  rw [update_jumpCharge, handleInput_jumpCharge]
  have hns : (0 : ℚ) ≤ s.jumpCharge + dt * 1.5 := by
    have : (0 : ℚ) ≤ dt * 1.5 := by positivity
    linarith
  have hmx : (0 : ℚ) ≤ maxJumpCharge := by norm_num [maxJumpCharge]
  split_ifs <;>
    first
      | exact ⟨le_min hns hmx, min_le_right _ _⟩
      | exact ⟨le_refl 0, hmx⟩
      | exact ⟨h0, h1⟩

/-- Witness for C4: one `dt = 1/10` jump-holding tick from the grounded
resting state. -/
theorem c4_jumpCharge_bounds_witness :
    (0 : ℚ) ≤ 1/10 ∧ 0 ≤ groundedState.jumpCharge
      ∧ groundedState.jumpCharge ≤ maxJumpCharge
      ∧ (0 ≤ (update (flatEnv ⟨0, ""⟩) (1/10)
            { noActions with jump := true } groundedState).1.jumpCharge
          ∧ (update (flatEnv ⟨0, ""⟩) (1/10)
              { noActions with jump := true } groundedState).1.jumpCharge
              ≤ maxJumpCharge) :=
  ⟨by norm_num, by norm_num [groundedState],
    by norm_num [groundedState, maxJumpCharge],
    c4_jumpCharge_bounds (flatEnv ⟨0, ""⟩) (1/10)
      { noActions with jump := true } groundedState (by norm_num)
      (by norm_num [groundedState]) (by norm_num [groundedState, maxJumpCharge])⟩

/-- Claim C5: jump charging is permitted exactly when grounded or within
the 0.25 s coyote window: while permitted and the jump is held,
`jumpCharge` advances at rate 1.5/s capped at `maxJumpCharge`; on an
airborne tick outside the window the charge is forcibly reset to 0 when
`airTime` exceeds 0.25 (and is merely left unchanged, never increased,
at the boundary `airTime = 0.25`), even if jump is still held. -/
theorem c5_coyote_charging (env : Env) (dt : ℚ) (a : Actions)
    (s : MotionState) :
    ((a.jump = true ∧ (s.grounded = true ∨ s.airTime < 0.25)) →
        (handleInput env dt a s).1.jumpCharge
          = min (s.jumpCharge + dt * 1.5) maxJumpCharge)
      ∧ ((s.grounded = false ∧ ¬ s.airTime < 0.25) →
          (handleInput env dt a s).1.jumpCharge
            = if 0.25 < s.airTime then 0 else s.jumpCharge) := by
  constructor
  · rintro ⟨hj, hperm⟩
    rw [handleInput_jumpCharge]
    have hcond : (s.grounded || decide (s.airTime < 0.25)) = true := by
      rcases hperm with h | h <;> simp [h]
    rw [if_pos hcond, if_pos hj]
  · rintro ⟨hg, hat⟩
    rw [handleInput_jumpCharge,
      if_neg (by simp [hg, hat] : ¬ (s.grounded || decide (s.airTime < 0.25)) = true)]

/-- Witness for C5: the spec's own scenario — airborne with
`airTime = 0.1` (inside the window) while holding jump the charge
advances; airborne with `airTime = 0.3` (outside the window) it is
reset to 0 even though jump is held. -/
theorem c5_coyote_charging_witness :
    (({ noActions with jump := true } : Actions).jump = true
        ∧ (({ airborneState with airTime := 1/10 } : MotionState).grounded = true
            ∨ ({ airborneState with airTime := 1/10 } : MotionState).airTime < 0.25))
      ∧ (handleInput (flatEnv ⟨0, ""⟩) (1/10) { noActions with jump := true }
          { airborneState with airTime := 1/10 }).1.jumpCharge
          = min (({ airborneState with airTime := 1/10 } : MotionState).jumpCharge
              + (1/10) * 1.5) maxJumpCharge
      ∧ (({ airborneState with airTime := 3/10 } : MotionState).grounded = false
          ∧ ¬ ({ airborneState with airTime := 3/10 } : MotionState).airTime < 0.25)
      ∧ (handleInput (flatEnv ⟨0, ""⟩) (1/10) { noActions with jump := true }
          { airborneState with airTime := 3/10 }).1.jumpCharge
          = if (0.25 : ℚ) < ({ airborneState with airTime := 3/10 } : MotionState).airTime
            then 0 else ({ airborneState with airTime := 3/10 } : MotionState).jumpCharge :=
  ⟨⟨rfl, Or.inr (by norm_num [airborneState])⟩,
    (c5_coyote_charging (flatEnv ⟨0, ""⟩) (1/10) { noActions with jump := true }
        { airborneState with airTime := 1/10 }).1
      ⟨rfl, Or.inr (by norm_num [airborneState])⟩,
    ⟨rfl, by norm_num [airborneState]⟩,
    (c5_coyote_charging (flatEnv ⟨0, ""⟩) (1/10) { noActions with jump := true }
        { airborneState with airTime := 3/10 }).2
      ⟨rfl, by norm_num [airborneState]⟩⟩

/-- Claim C8: on every airborne tick with the forward (flip) action held
and no lateral action, the rotation delta reported to the trick
collaborator is 0, `pitch` moves down by exactly `flipSpeed * dt`
(strictly decreasing for `dt > 0`), and `heading` is unchanged across
the whole tick. -/
theorem c8_flip_no_spin (env : Env) (dt : ℚ) (a : Actions) (s : MotionState)
    (hg : s.grounded = false) (hf : a.forward = true) (hl : a.left = false)
    (hr : a.right = false) :
    TrickEvent.tickUpdate dt 0 ∈ (handleInput env dt a s).2
      ∧ (∀ d rd, TrickEvent.tickUpdate d rd ∈ (handleInput env dt a s).2
          → rd = 0)
      ∧ (handleInput env dt a s).1.pitch = s.pitch - flipSpeed * dt
      ∧ (0 < dt → (handleInput env dt a s).1.pitch < s.pitch)
      ∧ (update env dt a s).1.heading = s.heading := by
  have hrd : rotDelta dt a s = 0 := by simp [rotDelta, hg, hf]
  have hie : inputEvents dt a s = [TrickEvent.tickUpdate dt 0] := by
    simp [inputEvents, hg, hrd]
  have hpitch : (handleInput env dt a s).1.pitch = s.pitch - flipSpeed * dt := by
    rw [handleInput_pitch]
    simp [inputPitch, hg, hf]
  refine ⟨?_, ?_, hpitch, ?_, ?_⟩
  · rw [handleInput_events, hie]
    simp
  · intro d rd hmem
    rw [handleInput_events, hie] at hmem
    simp only [List.mem_append, List.mem_singleton] at hmem
    rcases hmem with hmem | hmem
    · exact (TrickEvent.tickUpdate.injEq _ _ _ _).mp hmem.symm |>.2.symm
    · split_ifs at hmem <;> simp_all
  · intro hdt
    rw [hpitch]
    have : 0 < flipSpeed * dt := by
      have : (0 : ℚ) < flipSpeed := by norm_num [flipSpeed]
      positivity
    linarith
  · rw [update_heading, handleInput_heading, hrd, add_zero]

/-- Witness for C8: a `dt = 1/10` frontflip tick from the high airborne
state. -/
theorem c8_flip_no_spin_witness :
    airborneState.grounded = false
      ∧ ({ noActions with forward := true } : Actions).forward = true
      ∧ ({ noActions with forward := true } : Actions).left = false
      ∧ ({ noActions with forward := true } : Actions).right = false
      ∧ (TrickEvent.tickUpdate (1/10) 0
            ∈ (handleInput (voidEnv ⟨0, ""⟩) (1/10)
                { noActions with forward := true } airborneState).2
          ∧ (∀ d rd, TrickEvent.tickUpdate d rd
                ∈ (handleInput (voidEnv ⟨0, ""⟩) (1/10)
                    { noActions with forward := true } airborneState).2
              → rd = 0)
          ∧ (handleInput (voidEnv ⟨0, ""⟩) (1/10)
              { noActions with forward := true } airborneState).1.pitch
              = airborneState.pitch - flipSpeed * (1/10)
          ∧ (0 < (1/10 : ℚ) →
              (handleInput (voidEnv ⟨0, ""⟩) (1/10)
                  { noActions with forward := true } airborneState).1.pitch
                < airborneState.pitch)
          ∧ (update (voidEnv ⟨0, ""⟩) (1/10)
              { noActions with forward := true } airborneState).1.heading
              = airborneState.heading) :=
  ⟨rfl, rfl, rfl, rfl,
    c8_flip_no_spin (voidEnv ⟨0, ""⟩) (1/10) { noActions with forward := true }
      airborneState rfl rfl rfl rfl⟩

/-- Counterexample to claim C7 as stated: a `dt = 0` tick does change
state.  From `c7State` (grounded classification, resting `1/2` above the
terrain) the vertical snap moves `position`; from `c7ChargedState` the
jump release fires and changes `velocity`.  The square root is only
applied to `0` and `1` in these runs and the trigonometric parameters
only to the heading `0`, where the reference instantiations are exact. -/
theorem c7_dt_zero_counterexample :
    (update (flatEnv ⟨0, ""⟩) 0 noActions c7State).1.position
        ≠ c7State.position
      ∧ (update (flatEnv ⟨0, ""⟩) 0 noActions c7ChargedState).1.velocity
          ≠ c7ChargedState.velocity := by
  constructor <;>
    norm_num [update, handleInput, handlePhysics, rotDelta, turnInput,
      inputPitch, inputEvents, landScore, landName, landEvents,
      groundVelocity, airVelocity, sampleGround, probeOrigins, probeOffsets,
      groundedTest, vadd, vsub, vneg, vscale, vdot, vlerp, vlength,
      vnormalize, vsetLength, rotateY, lerpQ, flatEnv, sqrtRef, cosRef,
      sinRef, noActions, c7State, c7ChargedState, gravity, friction,
      turnSpeed, maxSpeed, jumpForce, maxJumpCharge, snapDistance,
      flipSpeed, airSteerSpeed, min_def, Vec3.mk.injEq, List.filterMap_cons,
      List.filterMap_nil, List.map_cons, List.map_nil, List.foldl_cons,
      List.foldl_nil, List.length_cons, List.length_nil, List.sum_cons,
      List.sum_nil]

/-- Claim C7 (amended): a `dt = 0` tick on which no jump release fires
and whose post-input state is classified airborne leaves `position`,
`velocity`, `heading` and `score` unchanged.  (As stated the claim fails:
on a grounded-classified tick the vertical snap moves `position.y` and
the into-ground velocity clamp can change `velocity` even at `dt = 0`,
a jump release adds the launch force at `dt = 0`, and a `dt = 0` landing
transition can change `score`.) -/
theorem c7_dt_zero_amended (env : Env) (a : Actions) (s : MotionState)
    (hnr : ¬ ((s.grounded = true ∨ s.airTime < 0.25) ∧ a.jump = false
        ∧ 0 < s.jumpCharge))
    (hair : ¬ groundedTest env (handleInput env 0 a s).1) :
    (update env 0 a s).1.position = s.position
      ∧ (update env 0 a s).1.velocity = s.velocity
      ∧ (update env 0 a s).1.heading = s.heading
      ∧ (update env 0 a s).1.score = s.score := by
  have hvel_in : (handleInput env 0 a s).1.velocity = s.velocity := by
    rw [handleInput_velocity]
    split_ifs with h1 h2 h3 h4 <;>
      first
        | rfl
        | exact absurd ⟨by simpa using h1, by simpa using h2, h3⟩ hnr
  refine ⟨?_, ?_, ?_, ?_⟩
  · rw [update_position, handlePhysics_position, if_neg hair,
      vadd_vscale_zero, handleInput_position]
  · rw [update_velocity, handlePhysics_velocity, if_neg hair,
      airVelocity_zero, hvel_in]
  · rw [update_heading, handleInput_heading, rotDelta_zero, add_zero]
  · rw [update_score, handlePhysics_score, if_neg hair, handleInput_score]

/-- Witness for the amended C7: a `dt = 0` tick from the high airborne
state over the hitless terrain. -/
theorem c7_dt_zero_amended_witness :
    (¬ ((airborneState.grounded = true ∨ airborneState.airTime < 0.25)
        ∧ noActions.jump = false ∧ 0 < airborneState.jumpCharge))
      ∧ (¬ groundedTest (voidEnv ⟨0, ""⟩)
          (handleInput (voidEnv ⟨0, ""⟩) 0 noActions airborneState).1)
      ∧ ((update (voidEnv ⟨0, ""⟩) 0 noActions airborneState).1.position
            = airborneState.position
          ∧ (update (voidEnv ⟨0, ""⟩) 0 noActions airborneState).1.velocity
              = airborneState.velocity
          ∧ (update (voidEnv ⟨0, ""⟩) 0 noActions airborneState).1.heading
              = airborneState.heading
          ∧ (update (voidEnv ⟨0, ""⟩) 0 noActions airborneState).1.score
              = airborneState.score) :=
  ⟨by norm_num [airborneState],
    by
      norm_num [handleInput, rotDelta, turnInput, inputPitch, inputEvents,
        lerpQ, groundedTest, sampleGround, probeOrigins, probeOffsets,
        landScore, landName, landEvents, groundVelocity, airVelocity,
        vadd, vscale, vdot, vlength, vnormalize, rotateY, voidEnv, sqrtRef,
        cosRef, sinRef, airborneState, noActions, snapDistance,
        maxJumpCharge, min_def, List.filterMap_cons, List.filterMap_nil,
        List.map_cons, List.map_nil, List.foldl_cons, List.foldl_nil,
        List.sum_cons, List.sum_nil],
    c7_dt_zero_amended (voidEnv ⟨0, ""⟩) noActions airborneState
      (by norm_num [airborneState])
      (by
        norm_num [handleInput, rotDelta, turnInput, inputPitch, inputEvents,
          lerpQ, groundedTest, sampleGround, probeOrigins, probeOffsets,
          landScore, landName, landEvents, groundVelocity, airVelocity,
          vadd, vscale, vdot, vlength, vnormalize, rotateY, voidEnv, sqrtRef,
          cosRef, sinRef, airborneState, noActions, snapDistance,
          maxJumpCharge, min_def, List.filterMap_cons, List.filterMap_nil,
          List.map_cons, List.map_nil, List.foldl_cons, List.foldl_nil,
          List.sum_cons, List.sum_nil])⟩

/-- `rotDelta` does not read `roll`. -/
theorem rotDelta_congr (dt : ℚ) (a : Actions) {s t : MotionState}
    (h : EqExceptRoll s t) : rotDelta dt a s = rotDelta dt a t := by
  simp only [rotDelta, h.grounded]

/-- `inputPitch` does not read `roll`. -/
theorem inputPitch_congr (dt : ℚ) (a : Actions) {s t : MotionState}
    (h : EqExceptRoll s t) : inputPitch dt a s = inputPitch dt a t := by
  simp only [inputPitch, h.grounded, h.pitch]

/-- `inputEvents` does not read `roll`. -/
theorem inputEvents_congr (dt : ℚ) (a : Actions) {s t : MotionState}
    (h : EqExceptRoll s t) : inputEvents dt a s = inputEvents dt a t := by
  simp only [inputEvents, h.grounded, rotDelta_congr dt a h]

/-- The probe origins do not read `roll`. -/
theorem probeOrigins_congr (env : Env) {s t : MotionState}
    (h : EqExceptRoll s t) : probeOrigins env s = probeOrigins env t := by
  simp only [probeOrigins, h.heading, h.position]

/-- Ground sampling does not read `roll`. -/
theorem sampleGround_congr (env : Env) {s t : MotionState}
    (h : EqExceptRoll s t) : sampleGround env s = sampleGround env t := by
  simp only [sampleGround, probeOrigins_congr env h]

/-- The contact classification does not read `roll`. -/
theorem groundedTest_congr (env : Env) {s t : MotionState}
    (h : EqExceptRoll s t) : groundedTest env s = groundedTest env t := by
  simp only [groundedTest, h.position, h.velocity, sampleGround_congr env h]

/-- The landing score update does not read `roll`. -/
theorem landScore_congr (env : Env) {s t : MotionState}
    (h : EqExceptRoll s t) : landScore env s = landScore env t := by
  simp only [landScore, h.grounded, h.score]

/-- The landing name update does not read `roll`. -/
theorem landName_congr (env : Env) {s t : MotionState}
    (h : EqExceptRoll s t) : landName env s = landName env t := by
  simp only [landName, h.grounded, h.lastTruncName]

/-- The landing handoff call does not read `roll`. -/
theorem landEvents_congr {s t : MotionState} (h : EqExceptRoll s t) :
    landEvents s = landEvents t := by
  simp only [landEvents, h.grounded]

/-- The grounded velocity pipeline does not read `roll`. -/
theorem groundVelocity_congr (env : Env) (dt : ℚ) (a : Actions)
    {s t : MotionState} (h : EqExceptRoll s t) (n : Vec3) :
    groundVelocity env dt a s n = groundVelocity env dt a t n := by
  simp only [groundVelocity, h.velocity, h.heading]

/-- The airborne velocity pipeline does not read `roll`. -/
theorem airVelocity_congr (env : Env) (dt : ℚ) (a : Actions)
    {s t : MotionState} (h : EqExceptRoll s t) :
    airVelocity env dt a s = airVelocity env dt a t := by
  simp only [airVelocity, h.velocity, h.heading]

/-- `handleInput` preserves agreement-except-`roll` and makes identical
collaborator calls on such states. -/
theorem handleInput_congr (env : Env) (dt : ℚ) (a : Actions)
    {s t : MotionState} (h : EqExceptRoll s t) :
    EqExceptRoll (handleInput env dt a s).1 (handleInput env dt a t).1
      ∧ (handleInput env dt a s).2 = (handleInput env dt a t).2 := by
  refine ⟨⟨?_, ?_, ?_, ?_, ?_, ?_, ?_, ?_, ?_⟩, ?_⟩
  · rw [handleInput_position, handleInput_position, h.position]
  · rw [handleInput_velocity, handleInput_velocity, h.velocity, h.grounded,
      h.airTime, h.jumpCharge]
  · rw [handleInput_heading, handleInput_heading, h.heading,
      rotDelta_congr dt a h]
  · rw [handleInput_pitch, handleInput_pitch, inputPitch_congr dt a h]
  · rw [handleInput_grounded, handleInput_grounded, h.grounded, h.airTime,
      h.jumpCharge]
  · rw [handleInput_airTime, handleInput_airTime, h.grounded, h.airTime,
      h.jumpCharge]
  · rw [handleInput_jumpCharge, handleInput_jumpCharge, h.grounded,
      h.airTime, h.jumpCharge]
  · rw [handleInput_score, handleInput_score, h.score]
  · rw [handleInput_lastTruncName, handleInput_lastTruncName,
      h.lastTruncName]
  · rw [handleInput_events, handleInput_events, inputEvents_congr dt a h,
      h.grounded, h.airTime, h.jumpCharge]

/-- `handlePhysics` preserves agreement-except-`roll` and makes identical
collaborator calls on such states. -/
theorem handlePhysics_congr (env : Env) (dt : ℚ) (a : Actions)
    {s t : MotionState} (h : EqExceptRoll s t) :
    EqExceptRoll (handlePhysics env dt a s).1 (handlePhysics env dt a t).1
      ∧ (handlePhysics env dt a s).2 = (handlePhysics env dt a t).2 := by
  refine ⟨⟨?_, ?_, ?_, ?_, ?_, ?_, ?_, ?_, ?_⟩, ?_⟩
  · simp only [handlePhysics_position, groundedTest_congr env h,
      groundVelocity_congr env dt a h, airVelocity_congr env dt a h,
      sampleGround_congr env h, h.position]
  · simp only [handlePhysics_velocity, groundedTest_congr env h,
      groundVelocity_congr env dt a h, airVelocity_congr env dt a h,
      sampleGround_congr env h]
  · simp only [handlePhysics_heading, h.heading]
  · simp only [handlePhysics_pitch, groundedTest_congr env h, h.grounded,
      h.pitch]
  · simp only [handlePhysics_grounded, groundedTest_congr env h]
  · simp only [handlePhysics_airTime, groundedTest_congr env h, h.airTime]
  · simp only [handlePhysics_jumpCharge, h.jumpCharge]
  · simp only [handlePhysics_score, groundedTest_congr env h,
      landScore_congr env h, h.score]
  · simp only [handlePhysics_lastTruncName, groundedTest_congr env h,
      landName_congr env h, h.lastTruncName]
  · simp only [handlePhysics_events, groundedTest_congr env h,
      landEvents_congr h]

/-- Claim C9: for any two motion states equal in every field except
`roll`, one tick of `update` under the same input snapshot and
environment produces states again equal in every field except possibly
`roll`, with identical calls into the trick collaborator: `roll` never
influences position, velocity, heading, pitch, grounded, airTime,
jumpCharge, or score. -/
theorem c9_roll_noninterference (env : Env) (dt : ℚ) (a : Actions)
    {s t : MotionState} (h : EqExceptRoll s t) :
    EqExceptRoll (update env dt a s).1 (update env dt a t).1
      ∧ (update env dt a s).2 = (update env dt a t).2 := by
  obtain ⟨hi, hie⟩ := handleInput_congr env dt a h
  obtain ⟨hp, hpe⟩ := handlePhysics_congr env dt a hi
  constructor
  · exact ⟨hp.position, hp.velocity, hp.heading, hp.pitch, hp.grounded,
      hp.airTime, hp.jumpCharge, hp.score, hp.lastTruncName⟩
  · rw [update_events, update_events, hie, hpe]

/-- Witness for C9: the grounded resting state against a copy leaned to
`roll = 1`. -/
theorem c9_roll_noninterference_witness :
    EqExceptRoll groundedState { groundedState with roll := 1 }
      ∧ (EqExceptRoll
            (update (flatEnv ⟨0, ""⟩) (1/10) noActions groundedState).1
            (update (flatEnv ⟨0, ""⟩) (1/10) noActions
              { groundedState with roll := 1 }).1
          ∧ (update (flatEnv ⟨0, ""⟩) (1/10) noActions groundedState).2
              = (update (flatEnv ⟨0, ""⟩) (1/10) noActions
                  { groundedState with roll := 1 }).2) :=
  ⟨⟨rfl, rfl, rfl, rfl, rfl, rfl, rfl, rfl, rfl⟩,
    c9_roll_noninterference (flatEnv ⟨0, ""⟩) (1/10) noActions
      ⟨rfl, rfl, rfl, rfl, rfl, rfl, rfl, rfl, rfl⟩⟩

end Whiteout
